import Mathlib

/-!
Verification development for the EDI 997 auto-validator.

The Python sources are embedded shallowly: Python strings are modelled as
`List Char` where character-level operations matter (stripping, splitting,
fixed-offset indexing) and as `String` where they are only compared;
Python `None`/optional values are `Option`; raising an exception is
returning the `Except.error`/`none` branch of the modelled function.
Each definition mirrors one function or method of the source tree and is
named after it.
-/

namespace EDI997

/-! ## Python string primitives (str.strip, str.split, str.replace, str.upper) -/

/-- Characters removed by Python `str.strip()` with no argument
(ASCII whitespace: space, tab, LF, CR, vertical tab, form feed). -/
def isPySpace (c : Char) : Bool :=
  c = ' ' || c = '\t' || c = '\n' || c = '\r' || c = '\x0b' || c = '\x0c'

/-- Python `s.strip()`: drop leading and trailing whitespace. -/
def pyStrip (cs : List Char) : List Char :=
  ((cs.dropWhile isPySpace).reverse.dropWhile isPySpace).reverse

/-- Python `s.split(sep)` for a single-character separator `sep`:
splits on every occurrence, keeping empty pieces (`"".split(c) = [""]`). -/
def pySplitChar (sep : Char) : List Char → List (List Char)
  | [] => [[]]
  | c :: rest =>
    match pySplitChar sep rest with
    | [] => [[c]]
    | p :: ps => if c = sep then [] :: p :: ps else (c :: p) :: ps

/-- Python `s.replace("\r\n", "")`: remove every (non-overlapping,
left-to-right) CR LF pair. -/
def replaceCRLF : List Char → List Char
  | [] => []
  | [c] => [c]
  | c :: c' :: rest =>
    if c = '\r' ∧ c' = '\n' then replaceCRLF rest
    else c :: replaceCRLF (c' :: rest)

/-- Python `s.replace(c, "")` for a single character `c`: remove every
occurrence. -/
def removeChar (c : Char) (cs : List Char) : List Char :=
  cs.filter (fun x => x ≠ c)

/-- Python `s.upper()` restricted to ASCII (all codes handled by the
validator are ASCII letters). -/
def pyUpper (s : String) : String :=
  ⟨s.data.map Char.toUpper⟩

/-- Python truthiness of an optional string: `None` and `""` are falsy. -/
def pyTruthyOptStr : Option String → Bool
  | none => false
  | some s => !s.isEmpty

/-! ## `src/parser/exceptions.py` — the exception classes raised by the
parsing layer (only those reachable from the modelled entry points). -/

inductive ParserError where
  | invalidISASegment
  | delimiterDetection
  | emptyFile
  deriving DecidableEq, Repr

/-! ## `src/parser/delimiter_detector.py` -/

/-- Model of `Delimiters` container.  Detected separators are single characters
(the pydantic config enforces length 1), so they are modelled as `Char`. -/
structure Delimiters where
  element : Char
  segment : Char
  sub_element : Char
  repetition : Option Char
  deriving DecidableEq, Repr

/-- Model of `DelimitersConfig` (from `src/models/config_schemas.py`) with its
field defaults `* ~ : ^`. -/
structure DelimitersConfig where
  element : Char := '*'
  segment : Char := '~'
  sub_element : Char := ':'
  repetition : Char := '^'
  deriving DecidableEq, Repr

/-- Model of `Delimiters.from_config`. -/
def Delimiters.from_config (cfg : DelimitersConfig) : Delimiters :=
  { element := cfg.element
    segment := cfg.segment
    sub_element := cfg.sub_element
    repetition := some cfg.repetition }

/-- Model of `DelimiterDetector.detect_from_isa`.  `InvalidISASegmentError` and
`DelimiterDetectionError` become the corresponding `ParserError`
constructors; the `IndexError` catch around the fixed-offset reads becomes
the wildcard arm of the `match` (unreachable once the length check
passed). -/
def detect_from_isa (isa_segment : List Char) : Except ParserError Delimiters :=
  if isa_segment.isEmpty then
    .error .invalidISASegment
  else
    let t := pyStrip isa_segment
    if !("ISA".data.isPrefixOf t) then
      .error .invalidISASegment
    else if t.length < 106 then
      .error .invalidISASegment
    else
      match t[3]?, t.getLast?, t[104]? with
      | some e, some sg, some sb =>
        if e = sg ∨ e = sb ∨ sg = sb then
          .error .delimiterDetection
        else
          .ok { element := e, segment := sg, sub_element := sb, repetition := none }
      | _, _, _ => .error .delimiterDetection

/-- Model of `DelimiterDetector.detect_from_file_content`: bound the header with the
first common terminator `~ ! |`, else the first newline, else a fixed-width
slice, then delegate to `detect_from_isa`. -/
def detect_from_file_content (content : List Char) : Except ParserError Delimiters :=
  if content.isEmpty then
    .error .invalidISASegment
  else
    let c := pyStrip content
    if !("ISA".data.isPrefixOf c) then
      .error .invalidISASegment
    else
      let isa_segment :=
        if '~' ∈ c then (pySplitChar '~' c).headD [] ++ ['~']
        else if '!' ∈ c then (pySplitChar '!' c).headD [] ++ ['!']
        else if '|' ∈ c then (pySplitChar '|' c).headD [] ++ ['|']
        else if '\n' ∈ c then (pySplitChar '\n' c).headD []
        else c.take 116
      detect_from_isa isa_segment

/-- Model of `DelimiterDetector.use_default_delimiters`. -/
def use_default_delimiters (dflt : DelimitersConfig) : Delimiters :=
  Delimiters.from_config dflt

/-! ## `src/parser/tokenizer.py` -/

/-- Model of `ParserConfig` (from `src/models/config_schemas.py`) with its field
defaults; the file-size limit concerns only the file-reading entry point
and is not modelled. -/
structure ParserConfig where
  auto_detect_delimiters : Bool := true
  default_delimiters : DelimitersConfig := {}
  trim_whitespace : Bool := true
  preserve_line_breaks : Bool := false
  deriving DecidableEq, Repr

/-- The line-break removal step of `tokenize_content`:
`content.replace("\r\n", "").replace("\n", "").replace("\r", "")`. -/
def stripLineBreaks (content : List Char) : List Char :=
  removeChar '\r' (removeChar '\n' (replaceCRLF content))

/-- Model of `EDITokenizer.tokenize_content`.  `EmptyFileError` becomes
`ParserError.emptyFile`; the `try/except` around auto-detection becomes a
`match` on the detector's `Except` result, falling back to
`use_default_delimiters`. -/
def tokenize_content (cfg : ParserConfig) (content : List Char)
    (delimiters : Option Delimiters) : Except ParserError (List (List Char)) :=
  if content.isEmpty || (pyStrip content).isEmpty then
    .error .emptyFile
  else
    let d :=
      match delimiters with
      | some d => d
      | none =>
        if cfg.auto_detect_delimiters then
          match detect_from_file_content content with
          | .ok d => d
          | .error _ => use_default_delimiters cfg.default_delimiters
        else
          use_default_delimiters cfg.default_delimiters
    let content2 :=
      if !cfg.preserve_line_breaks then stripLineBreaks content else content
    let segments := pySplitChar d.segment content2
    .ok (segments.filterMap (fun s =>
      let s' := if cfg.trim_whitespace then pyStrip s else s
      if s'.isEmpty then none else some s'))

/-! ## `src/models/segments.py` — typed segment records.  Only the fields
read by the validation pipeline and the validator are carried; integer
fields are `Nat` (pydantic enforces `ge=0`/`ge=1` on them). -/

structure ISASegment where
  interchange_sender_id : String
  interchange_receiver_id : String
  interchange_control_number : String
  deriving DecidableEq, Repr

structure AK1Segment where
  functional_id_code : String
  group_control_number : String
  deriving DecidableEq, Repr

structure AK2Segment where
  transaction_set_id : String
  transaction_set_control_number : String
  deriving DecidableEq, Repr

structure AK3Segment where
  segment_id : String
  segment_position_in_transaction_set : Nat
  segment_syntax_error_code : Option String
  deriving DecidableEq, Repr

structure AK4Segment where
  element_position_in_segment : Nat
  data_element_reference_number : Option Nat
  data_element_syntax_error_code : String
  copy_of_bad_data_element : Option String
  deriving DecidableEq, Repr

structure AK5Segment where
  transaction_set_ack_code : String
  transaction_set_syntax_error_code_1 : Option String := none
  transaction_set_syntax_error_code_2 : Option String := none
  transaction_set_syntax_error_code_3 : Option String := none
  transaction_set_syntax_error_code_4 : Option String := none
  transaction_set_syntax_error_code_5 : Option String := none
  deriving DecidableEq, Repr

/-- Model of `AK5Segment.get_error_codes`: keep the non-`None` codes in slot order. -/
def AK5Segment.get_error_codes (s : AK5Segment) : List String :=
  [s.transaction_set_syntax_error_code_1,
   s.transaction_set_syntax_error_code_2,
   s.transaction_set_syntax_error_code_3,
   s.transaction_set_syntax_error_code_4,
   s.transaction_set_syntax_error_code_5].filterMap id

structure AK9Segment where
  functional_group_ack_code : String
  number_of_transaction_sets_included : Nat
  number_of_received_transaction_sets : Nat
  number_of_accepted_transaction_sets : Nat
  functional_group_syntax_error_code_1 : Option String := none
  functional_group_syntax_error_code_2 : Option String := none
  functional_group_syntax_error_code_3 : Option String := none
  functional_group_syntax_error_code_4 : Option String := none
  functional_group_syntax_error_code_5 : Option String := none
  deriving DecidableEq, Repr

/-- Model of `AK9Segment.get_error_codes`. -/
def AK9Segment.get_error_codes (s : AK9Segment) : List String :=
  [s.functional_group_syntax_error_code_1,
   s.functional_group_syntax_error_code_2,
   s.functional_group_syntax_error_code_3,
   s.functional_group_syntax_error_code_4,
   s.functional_group_syntax_error_code_5].filterMap id

/-- A parsed segment as dispatched by `SegmentParser.parse_segment_by_id`.
The pipeline's scan only distinguishes the seven kinds below; every other
typed record (GS, ST, SE, GE, IEA, …) falls through all `isinstance`
branches, so they are collapsed into `other`. -/
inductive Seg where
  | isa (s : ISASegment)
  | ak1 (s : AK1Segment)
  | ak2 (s : AK2Segment)
  | ak3 (s : AK3Segment)
  | ak4 (s : AK4Segment)
  | ak5 (s : AK5Segment)
  | ak9 (s : AK9Segment)
  | other
  deriving DecidableEq, Repr

def Seg.isa? : Seg → Option ISASegment
  | .isa s => some s
  | _ => none

def Seg.ak1? : Seg → Option AK1Segment
  | .ak1 s => some s
  | _ => none

def Seg.ak2? : Seg → Option AK2Segment
  | .ak2 s => some s
  | _ => none

def Seg.ak3? : Seg → Option AK3Segment
  | .ak3 s => some s
  | _ => none

def Seg.ak4? : Seg → Option AK4Segment
  | .ak4 s => some s
  | _ => none

def Seg.ak5? : Seg → Option AK5Segment
  | .ak5 s => some s
  | _ => none

def Seg.ak9? : Seg → Option AK9Segment
  | .ak9 s => some s
  | _ => none

/-! ## `src/models/validation.py` — validation result models. -/

inductive TransactionStatus where
  | accepted
  | partiallyAccepted
  | rejected
  | unknown
  deriving DecidableEq, Repr

inductive FunctionalGroupStatus where
  | accepted
  | partiallyAccepted
  | rejected
  | unknown
  deriving DecidableEq, Repr

inductive ErrorSeverity where
  | error
  | warning
  | info
  deriving DecidableEq, Repr

structure ErrorDetail where
  segment_id : Option String
  segment_position : Option Nat
  element_position : Option Nat
  element_reference_number : Option Nat
  error_code : String
  error_description : String
  severity : ErrorSeverity
  bad_data_element : Option String
  deriving DecidableEq, Repr

structure TransactionSetValidation where
  transaction_set_id : String
  transaction_control_number : String
  status : TransactionStatus
  ack_code : String
  error_count : Nat
  errors : List ErrorDetail
  syntax_error_codes : List String
  deriving DecidableEq, Repr

structure FunctionalGroupValidation where
  functional_id_code : String
  group_control_number : String
  status : FunctionalGroupStatus
  ack_code : String
  transaction_sets_included : Nat
  transaction_sets_received : Nat
  transaction_sets_accepted : Nat
  transaction_validations : List TransactionSetValidation
  group_syntax_error_codes : List String
  deriving DecidableEq, Repr

/-- Model of `ValidationResult` (the validation timestamp, a wall-clock default, is
not modelled). -/
structure ValidationResult where
  interchange_control_number : String
  interchange_sender_id : String
  interchange_receiver_id : String
  functional_group : FunctionalGroupValidation
  is_valid : Bool
  deriving DecidableEq, Repr

/-! ## `src/utils/error_code_mapper.py` — the Error Code Resolver.  Its
tables are loaded from external YAML, so the mapper is modelled as an
opaque record of total lookup functions; every theorem quantifies over
it.  `plainMapper` below is the concrete instance used by witnesses
(the mapper's fallback shape for empty tables). -/

structure ErrorCodeInfo where
  code : String
  description : String
  severity : String
  deriving DecidableEq, Repr

structure ErrorCodeMapper where
  get_segment_error : String → ErrorCodeInfo
  get_element_error : String → ErrorCodeInfo
  get_transaction_set_error : String → ErrorCodeInfo

/-- Model of `ErrorCodeMapper` over empty code tables: each lookup takes the
documented fallback branch (`Unknown … syntax error: {code}`). -/
def plainMapper : ErrorCodeMapper where
  get_segment_error c :=
    { code := c, description := "Unknown segment syntax error: " ++ c, severity := "error" }
  get_element_error c :=
    { code := c, description := "Unknown element syntax error: " ++ c, severity := "error" }
  get_transaction_set_error c :=
    { code := c, description := "Unknown transaction set syntax error: " ++ c, severity := "error" }

/-! ## `src/validation/validator.py` — `Validator997`.  The class holds
only the mapper, so each method becomes a function taking the mapper as
its first argument. -/

/-- Model of `Validator997.classify_transaction_status`. -/
def classify_transaction_status (ack_code : String) : TransactionStatus :=
  let a := pyUpper ack_code
  if a = "A" then .accepted
  else if a ∈ ["E", "P"] then .partiallyAccepted
  else if a ∈ ["R", "M", "W", "X"] then .rejected
  else .unknown

/-- Model of `Validator997.classify_functional_group_status`. -/
def classify_functional_group_status (ack_code : String) : FunctionalGroupStatus :=
  let a := pyUpper ack_code
  if a = "A" then .accepted
  else if a ∈ ["E", "P"] then .partiallyAccepted
  else if a = "R" then .rejected
  else .unknown

/-- Model of `Validator997.build_error_detail_from_ak4`. -/
def build_error_detail_from_ak4 (m : ErrorCodeMapper) (ak4 : AK4Segment)
    (ak3 : Option AK3Segment) : ErrorDetail :=
  let error_info := m.get_element_error ak4.data_element_syntax_error_code
  { segment_id := ak3.map (·.segment_id)
    segment_position := ak3.map (·.segment_position_in_transaction_set)
    element_position := some ak4.element_position_in_segment
    element_reference_number := ak4.data_element_reference_number
    error_code := ak4.data_element_syntax_error_code
    error_description := error_info.description
    severity := .error
    bad_data_element := ak4.copy_of_bad_data_element }

/-- Model of `Validator997.build_error_detail_from_ak3`; the Python
`ak3.segment_syntax_error_code or "8"` treats both `None` and `""` as
absent. -/
def build_error_detail_from_ak3 (m : ErrorCodeMapper) (ak3 : AK3Segment) : ErrorDetail :=
  let error_code :=
    match ak3.segment_syntax_error_code with
    | some s => if s.isEmpty then "8" else s
    | none => "8"
  let error_info := m.get_segment_error error_code
  { segment_id := some ak3.segment_id
    segment_position := some ak3.segment_position_in_transaction_set
    element_position := none
    element_reference_number := none
    error_code := error_code
    error_description := error_info.description
    severity := .error
    bad_data_element := none }

/-- Model of `Validator997.validate_transaction_set`: AK3-level errors (for AK3s
whose syntax-error code is truthy), then one AK4-level error per AK4 — all
attributed to `ak3_segments[-1]` — then one error per AK5 syntax code. -/
def validate_transaction_set (m : ErrorCodeMapper) (ak2 : AK2Segment)
    (ak5 : AK5Segment) (ak3_segments : List AK3Segment)
    (ak4_segments : List AK4Segment) : TransactionSetValidation :=
  let status := classify_transaction_status ak5.transaction_set_ack_code
  let ak3_errors :=
    (ak3_segments.filter (fun a => pyTruthyOptStr a.segment_syntax_error_code)).map
      (build_error_detail_from_ak3 m)
  let current_ak3 := ak3_segments.getLast?
  let ak4_errors := ak4_segments.map (fun a => build_error_detail_from_ak4 m a current_ak3)
  let syntax_error_codes := ak5.get_error_codes
  let ak5_errors := syntax_error_codes.map (fun error_code =>
    let error_info := m.get_transaction_set_error error_code
    ({ segment_id := none
       segment_position := none
       element_position := none
       element_reference_number := none
       error_code := error_code
       error_description := error_info.description
       severity := .error
       bad_data_element := none } : ErrorDetail))
  let errors := ak3_errors ++ ak4_errors ++ ak5_errors
  { transaction_set_id := ak2.transaction_set_id
    transaction_control_number := ak2.transaction_set_control_number
    status := status
    ack_code := ak5.transaction_set_ack_code
    error_count := errors.length
    errors := errors
    syntax_error_codes := syntax_error_codes }

/-- Model of `Validator997.validate_functional_group`. -/
def validate_functional_group (ak1 : AK1Segment) (ak9 : AK9Segment)
    (transaction_validations : List TransactionSetValidation) :
    FunctionalGroupValidation :=
  { functional_id_code := ak1.functional_id_code
    group_control_number := ak1.group_control_number
    status := classify_functional_group_status ak9.functional_group_ack_code
    ack_code := ak9.functional_group_ack_code
    transaction_sets_included := ak9.number_of_transaction_sets_included
    transaction_sets_received := ak9.number_of_received_transaction_sets
    transaction_sets_accepted := ak9.number_of_accepted_transaction_sets
    transaction_validations := transaction_validations
    group_syntax_error_codes := ak9.get_error_codes }

/-- Model of `Validator997.validate_997`. -/
def validate_997 (isa : ISASegment) (ak1 : AK1Segment) (ak9 : AK9Segment)
    (transaction_validations : List TransactionSetValidation) : ValidationResult :=
  let fg_validation := validate_functional_group ak1 ak9 transaction_validations
  { interchange_control_number := isa.interchange_control_number
    interchange_sender_id := isa.interchange_sender_id
    interchange_receiver_id := isa.interchange_receiver_id
    functional_group := fg_validation
    is_valid := fg_validation.status = FunctionalGroupStatus.accepted }

/-! ## `src/utils/validation_pipeline.py` — `run_validation_pipeline`
from the parsed-segment stream onward.  The scan state gathers the last
ISA/AK1/AK9 seen, the finished transaction validations, and the open
AK2-loop accumulator (current AK2, AK3 list, AK4 list). -/

structure PipeState where
  isa : Option ISASegment := none
  ak1 : Option AK1Segment := none
  ak9 : Option AK9Segment := none
  transaction_validations : List TransactionSetValidation := []
  current_ak2 : Option AK2Segment := none
  current_ak3_segments : List AK3Segment := []
  current_ak4_segments : List AK4Segment := []
  deriving Repr

/-- The deferred-close lookup in the AK2 branch:
`next((s for s in parsed_segments[parsed_segments.index(current_ak2):] if
isinstance(s, AK5Segment)), None)`.  Python `list.index` finds the first
element equal to `current_ak2`. -/
def firstAK5From (parsed_segments : List Seg) (current_ak2 : AK2Segment) :
    Option AK5Segment :=
  (parsed_segments.drop (parsed_segments.indexOf (Seg.ak2 current_ak2))).findSome?
    Seg.ak5?

/-- One iteration of the `for seg in parsed_segments` loop of
`run_validation_pipeline`.  `parsed_segments` is the whole stream (needed
by the deferred-close branch). -/
def pipe_step (m : ErrorCodeMapper) (parsed_segments : List Seg)
    (st : PipeState) (seg : Seg) : PipeState :=
  match seg with
  | .isa s => { st with isa := some s }
  | .ak1 s => { st with ak1 := some s }
  | .ak2 s =>
    let st' :=
      match st.current_ak2 with
      | some prev =>
        match firstAK5From parsed_segments prev with
        | some ak5 =>
          let tv := validate_transaction_set m prev ak5
            st.current_ak3_segments st.current_ak4_segments
          { st with transaction_validations := st.transaction_validations ++ [tv] }
        | none => st
      | none => st
    { st' with current_ak2 := some s,
               current_ak3_segments := [],
               current_ak4_segments := [] }
  | .ak3 s => { st with current_ak3_segments := st.current_ak3_segments ++ [s] }
  | .ak4 s => { st with current_ak4_segments := st.current_ak4_segments ++ [s] }
  | .ak5 s =>
    match st.current_ak2 with
    | some cur =>
      let tv := validate_transaction_set m cur s
        st.current_ak3_segments st.current_ak4_segments
      { st with transaction_validations := st.transaction_validations ++ [tv],
                current_ak2 := none,
                current_ak3_segments := [],
                current_ak4_segments := [] }
    | none => st
  | .ak9 s => { st with ak9 := some s }
  | .other => st

/-- The errors the pipeline can signal after the scan
(`raise ValueError("Missing required segments (ISA, AK1, or AK9)")`). -/
inductive PipelineError where
  | missingRequiredSegment
  deriving DecidableEq, Repr

/-- Model of `run_validation_pipeline`, starting from the parsed segment stream
(delimiter detection, tokenization and per-segment parsing happen
upstream of this scan). -/
def run_validation_pipeline_segments (m : ErrorCodeMapper)
    (parsed_segments : List Seg) : Except PipelineError ValidationResult :=
  let st := parsed_segments.foldl (pipe_step m parsed_segments) {}
  match st.isa, st.ak1, st.ak9 with
  | some isa, some ak1, some ak9 =>
    .ok (validate_997 isa ak1 ak9 st.transaction_validations)
  | _, _, _ => .error .missingRequiredSegment

/-- The transaction validations accumulated by the scan (the
`transaction_validations` list right before the final required-segment
check). -/
def pipeline_transaction_validations (m : ErrorCodeMapper)
    (parsed_segments : List Seg) : List TransactionSetValidation :=
  (parsed_segments.foldl (pipe_step m parsed_segments) {}).transaction_validations

/-! ## `src/models/reconciliation.py` -/

inductive ReconciliationStatus where
  | matched
  | missingAck
  | unexpectedAck
  | controlNumberMismatch
  deriving DecidableEq, Repr

structure OutboundTransaction where
  transaction_set_id : String
  transaction_control_number : String
  group_control_number : String
  functional_id_code : String
  deriving DecidableEq, Repr

structure OutboundFunctionalGroup where
  functional_id_code : String
  group_control_number : String
  transactions : List OutboundTransaction
  deriving DecidableEq, Repr

structure TransactionReconciliation where
  outbound_transaction : Option OutboundTransaction
  acknowledgment : Option TransactionSetValidation
  status : ReconciliationStatus
  mismatch_reason : Option String
  deriving DecidableEq, Repr

/-- Model of `TransactionReconciliation.is_matched`. -/
def TransactionReconciliation.is_matched (tr : TransactionReconciliation) : Bool :=
  tr.status = ReconciliationStatus.matched

structure FunctionalGroupReconciliation where
  outbound_group : Option OutboundFunctionalGroup
  group_control_number : String
  functional_id_code : String
  transaction_reconciliations : List TransactionReconciliation
  deriving DecidableEq, Repr

/-- Model of `FunctionalGroupReconciliation.matched_count`. -/
def FunctionalGroupReconciliation.matched_count
    (fg : FunctionalGroupReconciliation) : Nat :=
  (fg.transaction_reconciliations.filter (·.is_matched)).length

/-- Model of `FunctionalGroupReconciliation.missing_ack_count`. -/
def FunctionalGroupReconciliation.missing_ack_count
    (fg : FunctionalGroupReconciliation) : Nat :=
  (fg.transaction_reconciliations.filter
    (fun tr => tr.status = ReconciliationStatus.missingAck)).length

/-- Model of `FunctionalGroupReconciliation.unexpected_ack_count`. -/
def FunctionalGroupReconciliation.unexpected_ack_count
    (fg : FunctionalGroupReconciliation) : Nat :=
  (fg.transaction_reconciliations.filter
    (fun tr => tr.status = ReconciliationStatus.unexpectedAck)).length

/-- Model of `FunctionalGroupReconciliation.total_count`. -/
def FunctionalGroupReconciliation.total_count
    (fg : FunctionalGroupReconciliation) : Nat :=
  fg.transaction_reconciliations.length

/-- Model of `FunctionalGroupReconciliation.is_fully_reconciled`:
`total_count > 0 and matched_count == total_count`. -/
def FunctionalGroupReconciliation.is_fully_reconciled
    (fg : FunctionalGroupReconciliation) : Bool :=
  decide (0 < fg.total_count) && decide (fg.matched_count = fg.total_count)

/-! ## `src/reconciliation/reconciler.py` — `Reconciler`. -/

/-- Model of `Reconciler.reconcile_transaction`.  Pydantic model instances are
always truthy, so the Python `if outbound_tx and ack_tx` chain tests
presence; the final `raise ValueError` (both sides absent) is the `none`
result. -/
def reconcile_transaction (outbound_tx : Option OutboundTransaction)
    (ack_tx : Option TransactionSetValidation) :
    Option TransactionReconciliation :=
  match outbound_tx, ack_tx with
  | some o, some a =>
    if o.transaction_set_id ≠ a.transaction_set_id then
      some { outbound_transaction := some o,
             acknowledgment := some a,
             status := .controlNumberMismatch,
             mismatch_reason := some ("Transaction set ID mismatch: expected " ++
               o.transaction_set_id ++ ", got " ++ a.transaction_set_id) }
    else
      some { outbound_transaction := some o,
             acknowledgment := some a,
             status := .matched,
             mismatch_reason := none }
  | some o, none =>
    some { outbound_transaction := some o,
           acknowledgment := none,
           status := .missingAck,
           mismatch_reason := some ("No acknowledgment received for transaction " ++
             o.transaction_control_number) }
  | none, some a =>
    some { outbound_transaction := none,
           acknowledgment := some a,
           status := .unexpectedAck,
           mismatch_reason := some ("Unexpected acknowledgment for transaction " ++
             a.transaction_control_number) }
  | none, none => none

/-- Lookup in a Python dict built by `{key(tx): tx for tx in txs}`:
later entries overwrite earlier ones, so `.get k` returns the last
element whose key equals `k`. -/
def pyDictGet {α : Type} (key : α → String) (txs : List α) (k : String) : Option α :=
  (txs.filter (fun t => key t = k)).getLast?

/-- The iteration order of `reconcile_functional_group`:
`sorted(set(outbound_map.keys()) | set(ack_map.keys()))`, i.e. the
deduplicated union of both key lists in increasing string order. -/
def sorted_control_numbers (fg_validation : FunctionalGroupValidation)
    (outbound_group : OutboundFunctionalGroup) : List String :=
  ((outbound_group.transactions.map (·.transaction_control_number)) ++
    (fg_validation.transaction_validations.map (·.transaction_control_number))).dedup.mergeSort
    (fun a b => a ≤ b)

/-- Model of `Reconciler.reconcile_functional_group`.  The loop appends
`reconcile_transaction` results; a `none` (the impossible both-absent
`ValueError`) would abort the whole call, hence the `mapM` in the
`Option` monad. -/
def reconcile_functional_group (fg_validation : FunctionalGroupValidation)
    (outbound_group : OutboundFunctionalGroup) :
    Option FunctionalGroupReconciliation :=
  let outbound_get := pyDictGet (·.transaction_control_number) outbound_group.transactions
  let ack_get := pyDictGet (·.transaction_control_number) fg_validation.transaction_validations
  match (sorted_control_numbers fg_validation outbound_group).mapM
      (fun k => reconcile_transaction (outbound_get k) (ack_get k)) with
  | some trs =>
    some { outbound_group := some outbound_group,
           group_control_number := fg_validation.group_control_number,
           functional_id_code := fg_validation.functional_id_code,
           transaction_reconciliations := trs }
  | none => none

/-! ## Claim-side vocabulary: shapes of well-formed acknowledgment streams
used to state properties of the pipeline scan. -/

/-- One syntactically well-formed AK2 loop occurrence inside a segment
stream: arbitrary leading segments `pre`, the AK2 header, the loop body
`mid` (the segments seen while the loop is open), and the closing AK5. -/
structure LoopShape where
  pre : List Seg
  hd : AK2Segment
  mid : List Seg
  close : AK5Segment
  deriving Repr

/-- Flatten a list of AK2 loops (followed by trailing segments) back into
a segment stream. -/
def assembleLoops : List LoopShape → List Seg → List Seg
  | [], tail => tail
  | lp :: rest, tail =>
    lp.pre ++ Seg.ak2 lp.hd :: (lp.mid ++ Seg.ak5 lp.close :: assembleLoops rest tail)

/-- The transaction validations a correct loop reconstruction must
produce for a list of well-formed loops: one per AK2, built from its own
closing AK5 and the AK3/AK4 notes interleaved inside the loop body. -/
def loopValidations (m : ErrorCodeMapper) (loops : List LoopShape) :
    List TransactionSetValidation :=
  loops.map (fun lp =>
    validate_transaction_set m lp.hd lp.close
      (lp.mid.filterMap Seg.ak3?) (lp.mid.filterMap Seg.ak4?))

/-- A segment that is local to an open transaction-set loop: an AK3 note,
an AK4 note, or a segment the scan ignores. -/
def Seg.isNote : Seg → Bool
  | .ak3 _ => true
  | .ak4 _ => true
  | .other => true
  | _ => false

/-- A parsed-segment stream holding two functional-group acknowledgment
loops: `ISA, AK1(g1), loops1, AK9(n1), AK1(g2), loops2, AK9(n2)`. -/
def twoGroupStream (i : ISASegment) (g1 g2 : AK1Segment) (n1 n2 : AK9Segment)
    (loops1 loops2 : List LoopShape) : List Seg :=
  Seg.isa i :: Seg.ak1 g1 ::
    (assembleLoops loops1 [] ++
      (Seg.ak9 n1 :: Seg.ak1 g2 :: (assembleLoops loops2 [] ++ [Seg.ak9 n2])))

/-- A line-ending style, for stating the tokenizer's line-break
invariance. -/
inductive LineBreak where
  | crlf
  | lf
  | cr
  deriving DecidableEq, Repr

def LineBreak.chars : LineBreak → List Char
  | .crlf => ['\r', '\n']
  | .lf => ['\n']
  | .cr => ['\r']

/-- Render a document given as a list of lines, each paired with its
line-ending style. -/
def renderLines : List (List Char × LineBreak) → List Char
  | [] => []
  | (l, e) :: rest => l ++ e.chars ++ renderLines rest

/-! # Theorems -/

/-! ## C6 — full reconciliation predicate -/

/-- C6: for every `FunctionalGroupReconciliation`, `is_fully_reconciled`
is true iff `total_count > 0` and `matched_count = total_count`; in
particular it is false whenever the list of transaction reconciliations
is empty, so an empty outbound-plus-acknowledgment set is never fully
reconciled. -/
theorem is_fully_reconciled_iff (fg : FunctionalGroupReconciliation) :
    (fg.is_fully_reconciled = true ↔
      0 < fg.total_count ∧ fg.matched_count = fg.total_count) ∧
    (∀ og gcn fic,
      FunctionalGroupReconciliation.is_fully_reconciled
        { outbound_group := og, group_control_number := gcn,
          functional_id_code := fic, transaction_reconciliations := [] } = false) := by
  constructor
  · simp [FunctionalGroupReconciliation.is_fully_reconciled]
  · intro og gcn fic
    simp [FunctionalGroupReconciliation.is_fully_reconciled,
      FunctionalGroupReconciliation.total_count]

/-! ## C3 — acknowledgment code classification -/

/-- C3 counterexample: at functional-group level the codes `M`, `W` and
`X` are classified `UNKNOWN`, not `REJECTED`, so the claimed "identical
shape at both levels with M/W/X treated as REJECTED at group level too"
is false on the code. -/
theorem classify_group_mwx_counterexample :
    classify_functional_group_status "M" = FunctionalGroupStatus.unknown ∧
    classify_functional_group_status "W" = FunctionalGroupStatus.unknown ∧
    classify_functional_group_status "X" = FunctionalGroupStatus.unknown ∧
    FunctionalGroupStatus.unknown ≠ FunctionalGroupStatus.rejected := by
  refine ⟨by decide, by decide, by decide, by decide⟩

/-- C3 amended: both classifiers are deterministic functions of the
upper-cased code.  At transaction level `A ↦ ACCEPTED`,
`E,P ↦ PARTIALLY_ACCEPTED`, `R,M,W,X ↦ REJECTED`, everything else
`UNKNOWN`; at group level the same mapping except that only `R` maps to
`REJECTED` — `M`, `W`, `X` fall through to `UNKNOWN` there. -/
theorem classify_status_table (s : String) :
    (classify_transaction_status s = .accepted ↔ pyUpper s = "A") ∧
    (classify_transaction_status s = .partiallyAccepted ↔
      pyUpper s ∈ (["E", "P"] : List String)) ∧
    (classify_transaction_status s = .rejected ↔
      pyUpper s ∈ (["R", "M", "W", "X"] : List String)) ∧
    (classify_transaction_status s = .unknown ↔
      pyUpper s ∉ (["A", "E", "P", "R", "M", "W", "X"] : List String)) ∧
    (classify_functional_group_status s = .accepted ↔ pyUpper s = "A") ∧
    (classify_functional_group_status s = .partiallyAccepted ↔
      pyUpper s ∈ (["E", "P"] : List String)) ∧
    (classify_functional_group_status s = .rejected ↔ pyUpper s = "R") ∧
    (classify_functional_group_status s = .unknown ↔
      pyUpper s ∉ (["A", "E", "P", "R"] : List String)) := by
  simp only [classify_transaction_status, classify_functional_group_status]
  generalize pyUpper s = u
  by_cases h1 : u = "A"
  · subst h1; decide
  by_cases h2 : u = "E"
  · subst h2; decide
  by_cases h3 : u = "P"
  · subst h3; decide
  by_cases h4 : u = "R"
  · subst h4; decide
  by_cases h5 : u = "M"
  · subst h5; decide
  by_cases h6 : u = "W"
  · subst h6; decide
  by_cases h7 : u = "X"
  · subst h7; decide
  simp [h1, h2, h3, h4, h5, h6, h7]

/-! ## C2 — AK4 error-detail construction -/

/-- C2 counterexample: in the loop `AK2, AK3(REF), AK4, AK3(NTE), AK5`
the single AK4 appears after `AK3(REF)` and before `AK3(NTE)`, so the
most recently seen AK3 at the point the AK4 appeared is `REF`; the
pipeline nevertheless attributes the AK4's `ErrorDetail` to `NTE`, the
last AK3 of the whole loop. -/
theorem ak4_attribution_counterexample :
    ((pipeline_transaction_validations plainMapper
        [Seg.ak2 ⟨"850", "0001"⟩, Seg.ak3 ⟨"REF", 3, none⟩,
         Seg.ak4 ⟨2, some 127, "1", none⟩, Seg.ak3 ⟨"NTE", 7, none⟩,
         Seg.ak5 ⟨"E", none, none, none, none, none⟩]).map
      (fun tv => tv.errors.map (·.segment_id))) = [[some "NTE"]] ∧
    ((([Seg.ak2 ⟨"850", "0001"⟩, Seg.ak3 ⟨"REF", 3, none⟩,
        Seg.ak4 ⟨2, some 127, "1", none⟩, Seg.ak3 ⟨"NTE", 7, none⟩,
        Seg.ak5 ⟨"E", none, none, none, none, none⟩].take 2).filterMap
      Seg.ak3?).map (·.segment_id)) = ["REF"] ∧
    ("REF" : String) ≠ "NTE" := by
  refine ⟨by rfl, by rfl, by decide⟩

/-- C2 amended: in `validate_transaction_set` every captured AK4 yields
exactly one `ErrorDetail`, placed after the AK3-level details; its
segment context (tag and 1-based position) is taken from the **last** AK3
of the whole loop (`ak3_segments[-1]`, independent of where the AK4
appeared), absent when the loop has no AK3; the detail carries the AK4's
element position, element reference number, error code with its
description resolved via the Error Code Resolver, and the copy of the bad
data element. -/
theorem ak4_error_details (m : ErrorCodeMapper) (ak2 : AK2Segment)
    (ak5 : AK5Segment) (ak3s : List AK3Segment) (ak4s : List AK4Segment) :
    (((validate_transaction_set m ak2 ak5 ak3s ak4s).errors.drop
        ((ak3s.filter (fun a => pyTruthyOptStr a.segment_syntax_error_code)).length)).take
      ak4s.length) =
      ak4s.map (fun x =>
        ({ segment_id := (ak3s.getLast?).map (·.segment_id),
           segment_position := (ak3s.getLast?).map (·.segment_position_in_transaction_set),
           element_position := some x.element_position_in_segment,
           element_reference_number := x.data_element_reference_number,
           error_code := x.data_element_syntax_error_code,
           error_description := (m.get_element_error x.data_element_syntax_error_code).description,
           severity := .error,
           bad_data_element := x.copy_of_bad_data_element } : ErrorDetail)) ∧
    (validate_transaction_set m ak2 ak5 ak3s ak4s).errors.length =
      (ak3s.filter (fun a => pyTruthyOptStr a.segment_syntax_error_code)).length +
        ak4s.length + ak5.get_error_codes.length := by
  constructor
  · show ((((ak3s.filter _).map _ ++ _ ++ _ : List ErrorDetail)).drop _).take _ = _
    rw [List.append_assoc]
    rw [show ((ak3s.filter (fun a => pyTruthyOptStr a.segment_syntax_error_code)).length)
        = ((ak3s.filter (fun a => pyTruthyOptStr a.segment_syntax_error_code)).map
            (build_error_detail_from_ak3 m)).length from (List.length_map _ _).symm]
    rw [List.drop_left]
    rw [show ak4s.length =
        (ak4s.map (fun a => build_error_detail_from_ak4 m a ak3s.getLast?)).length from
      (List.length_map _ _).symm]
    rw [List.take_left]
    simp [build_error_detail_from_ak4]
  · simp [validate_transaction_set]
    omega

/-! ## C7 — delimiter detection from the ISA header -/

/-- C7: for every header whose trimmed form starts with `ISA`, has at
least 106 characters, and whose characters at offset 3, offset 104 and
the last position are pairwise distinct, detection returns exactly those
three separators with repetition unset; it fails with the invalid-header
error when the `ISA` prefix is absent or the trimmed header is shorter
than 106 characters, and with the delimiter-conflict error when two of
the three extracted separators coincide. -/
theorem detect_from_isa_spec :
    (∀ (s : List Char) (e sg sb : Char),
      "ISA".data.isPrefixOf (pyStrip s) = true →
      106 ≤ (pyStrip s).length →
      (pyStrip s)[3]? = some e →
      (pyStrip s).getLast? = some sg →
      (pyStrip s)[104]? = some sb →
      e ≠ sg → e ≠ sb → sg ≠ sb →
      detect_from_isa s =
        .ok { element := e, segment := sg, sub_element := sb, repetition := none }) ∧
    (∀ s : List Char,
      "ISA".data.isPrefixOf (pyStrip s) = false ∨ (pyStrip s).length < 106 →
      detect_from_isa s = .error .invalidISASegment) ∧
    (∀ (s : List Char) (e sg sb : Char),
      "ISA".data.isPrefixOf (pyStrip s) = true →
      106 ≤ (pyStrip s).length →
      (pyStrip s)[3]? = some e →
      (pyStrip s).getLast? = some sg →
      (pyStrip s)[104]? = some sb →
      (e = sg ∨ e = sb ∨ sg = sb) →
      detect_from_isa s = .error .delimiterDetection) := by
  refine ⟨?_, ?_, ?_⟩
  · intro s e sg sb hpre hlen h3 hl h104 hne1 hne2 hne3
    have hs : s.isEmpty = false := by
      cases s with
      | nil => simp [pyStrip] at hpre
      | cons a t => rfl
    have hnl : ¬((pyStrip s).length < 106) := by omega
    have hd : ¬(e = sg ∨ e = sb ∨ sg = sb) := by tauto
    simp [detect_from_isa, hs, hpre, hnl, h3, hl, h104, hd]
  · intro s h
    rcases hs0 : s with _ | ⟨a, t⟩
    · rfl
    have hs : s.isEmpty = false := by rw [hs0]; rfl
    rw [← hs0]
    rcases h with h | h
    · simp [detect_from_isa, hs, h]
    · by_cases hp : "ISA".data.isPrefixOf (pyStrip s) = true
      · simp [detect_from_isa, hs, hp, h]
      · have hp' : "ISA".data.isPrefixOf (pyStrip s) = false :=
          Bool.eq_false_iff.mpr hp
        simp [detect_from_isa, hs, hp']
  · intro s e sg sb hpre hlen h3 hl h104 hd
    have hs : s.isEmpty = false := by
      cases s with
      | nil => simp [pyStrip] at hpre
      | cons a t => rfl
    have hnl : ¬((pyStrip s).length < 106) := by omega
    simp [detect_from_isa, hs, hpre, hnl, h3, hl, h104, hd]

/-- C7 witness: a concrete 106-character header
`ISA*` + 100 filler characters + `:~` detects as `('*', '~', ':')`. -/
theorem detect_from_isa_spec_witness :
    detect_from_isa ('I' :: 'S' :: 'A' :: '*' :: (List.replicate 100 'A' ++ [':', '~'])) =
      .ok { element := '*', segment := '~', sub_element := ':', repetition := none } :=
  detect_from_isa_spec.1 _ '*' '~' ':' (by decide) (by decide) (by decide)
    (by decide) (by decide) (by decide) (by decide) (by decide)

/-! ## C9 — missing required segments -/

/-- Helper: a step on a non-ISA segment leaves the ISA register
unchanged. -/
theorem pipe_step_isa_eq (m : ErrorCodeMapper) (all : List Seg) (st : PipeState) :
    ∀ seg : Seg, seg.isa? = none → (pipe_step m all st seg).isa = st.isa
  | .isa s, h => by simp [Seg.isa?] at h
  | .ak1 _, _ => rfl
  | .ak2 s, _ => by
    simp only [pipe_step]
    split
    · split <;> rfl
    · rfl
  | .ak3 _, _ => rfl
  | .ak4 _, _ => rfl
  | .ak5 s, _ => by
    simp only [pipe_step]
    split <;> rfl
  | .ak9 _, _ => rfl
  | .other, _ => rfl

/-- Helper: a step on a non-AK1 segment leaves the AK1 register
unchanged. -/
theorem pipe_step_ak1_eq (m : ErrorCodeMapper) (all : List Seg) (st : PipeState) :
    ∀ seg : Seg, seg.ak1? = none → (pipe_step m all st seg).ak1 = st.ak1
  | .isa _, _ => rfl
  | .ak1 s, h => by simp [Seg.ak1?] at h
  | .ak2 s, _ => by
    simp only [pipe_step]
    split
    · split <;> rfl
    · rfl
  | .ak3 _, _ => rfl
  | .ak4 _, _ => rfl
  | .ak5 s, _ => by
    simp only [pipe_step]
    split <;> rfl
  | .ak9 _, _ => rfl
  | .other, _ => rfl

/-- Helper: a step on a non-AK9 segment leaves the AK9 register
unchanged. -/
theorem pipe_step_ak9_eq (m : ErrorCodeMapper) (all : List Seg) (st : PipeState) :
    ∀ seg : Seg, seg.ak9? = none → (pipe_step m all st seg).ak9 = st.ak9
  | .isa _, _ => rfl
  | .ak1 _, _ => rfl
  | .ak2 s, _ => by
    simp only [pipe_step]
    split
    · split <;> rfl
    · rfl
  | .ak3 _, _ => rfl
  | .ak4 _, _ => rfl
  | .ak5 s, _ => by
    simp only [pipe_step]
    split <;> rfl
  | .ak9 s, h => by simp [Seg.ak9?] at h
  | .other, _ => rfl

/-- Helper: folding over a list without any ISA segment leaves the ISA
register unchanged, and similarly for AK1 and AK9. -/
theorem foldl_register_eq (m : ErrorCodeMapper) (all : List Seg) :
    ∀ (l : List Seg) (st : PipeState),
      ((∀ s ∈ l, s.isa? = none) → (l.foldl (pipe_step m all) st).isa = st.isa) ∧
      ((∀ s ∈ l, s.ak1? = none) → (l.foldl (pipe_step m all) st).ak1 = st.ak1) ∧
      ((∀ s ∈ l, s.ak9? = none) → (l.foldl (pipe_step m all) st).ak9 = st.ak9)
  | [], st => by simp
  | seg :: rest, st => by
    refine ⟨fun h => ?_, fun h => ?_, fun h => ?_⟩ <;>
      simp only [List.foldl_cons]
    · rw [(foldl_register_eq m all rest _).1 (fun s hs => h s (List.mem_cons_of_mem _ hs)),
        pipe_step_isa_eq m all st seg (h seg (List.mem_cons_self _ _))]
    · rw [(foldl_register_eq m all rest _).2.1 (fun s hs => h s (List.mem_cons_of_mem _ hs)),
        pipe_step_ak1_eq m all st seg (h seg (List.mem_cons_self _ _))]
    · rw [(foldl_register_eq m all rest _).2.2 (fun s hs => h s (List.mem_cons_of_mem _ hs)),
        pipe_step_ak9_eq m all st seg (h seg (List.mem_cons_self _ _))]

/-- C9: whenever the parsed segment stream contains no ISA segment, no
AK1 segment, or no AK9 segment, the validation pipeline fails with the
missing-required-segment error and produces no `ValidationResult`. -/
theorem missing_required_segment (m : ErrorCodeMapper) (segs : List Seg)
    (h : (∀ s ∈ segs, s.isa? = none) ∨ (∀ s ∈ segs, s.ak1? = none) ∨
      (∀ s ∈ segs, s.ak9? = none)) :
    run_validation_pipeline_segments m segs = .error .missingRequiredSegment := by
  have hfold := foldl_register_eq m segs segs ({} : PipeState)
  simp only [run_validation_pipeline_segments]
  rcases h with h | h | h
  · rw [hfold.1 h]
  · rw [hfold.2.1 h]
    rcases hsi : (List.foldl (pipe_step m segs) ({} : PipeState) segs).isa with _ | i <;>
      rfl
  · rw [hfold.2.2 h]
    rcases hsi : (List.foldl (pipe_step m segs) ({} : PipeState) segs).isa with _ | i
    · rfl
    · rcases ha : (List.foldl (pipe_step m segs) ({} : PipeState) segs).ak1 with _ | a <;>
        rfl

/-- C9 witness: a stream with AK1 and AK9 but no ISA fails with the
missing-required-segment error. -/
theorem missing_required_segment_witness :
    run_validation_pipeline_segments plainMapper
      [Seg.ak1 ⟨"PO", "1234"⟩, Seg.ak9 ⟨"A", 1, 1, 1, none, none, none, none, none⟩] =
      .error .missingRequiredSegment :=
  missing_required_segment plainMapper _ (Or.inl (by decide))

/-! ## C1 — loop reconstruction by the pipeline scan -/

/-- Helper: folding over segments that contain no AK2 while no loop is
open leaves the accumulated validations unchanged and keeps the open-loop
slot empty. -/
theorem foldl_tvs_no_ak2 (m : ErrorCodeMapper) (all : List Seg) :
    ∀ (l : List Seg) (st : PipeState), st.current_ak2 = none →
      (∀ s ∈ l, s.ak2? = none) →
      (l.foldl (pipe_step m all) st).transaction_validations =
        st.transaction_validations ∧
      (l.foldl (pipe_step m all) st).current_ak2 = none
  | [], st, hcur, _ => ⟨rfl, hcur⟩
  | seg :: rest, st, hcur, h => by
    have hseg := h seg (List.mem_cons_self _ _)
    have hrest : ∀ s ∈ rest, s.ak2? = none :=
      fun s hs => h s (List.mem_cons_of_mem _ hs)
    simp only [List.foldl_cons]
    have hstep : (pipe_step m all st seg).transaction_validations =
        st.transaction_validations ∧ (pipe_step m all st seg).current_ak2 = none := by
      cases seg with
      | isa s => exact ⟨rfl, hcur⟩
      | ak1 s => exact ⟨rfl, hcur⟩
      | ak2 s => simp [Seg.ak2?] at hseg
      | ak3 s => exact ⟨rfl, hcur⟩
      | ak4 s => exact ⟨rfl, hcur⟩
      | ak5 s => constructor <;> simp [pipe_step, hcur]
      | ak9 s => exact ⟨rfl, hcur⟩
      | other => exact ⟨rfl, hcur⟩
    obtain ⟨h1, h2⟩ := foldl_tvs_no_ak2 m all rest (pipe_step m all st seg) hstep.2 hrest
    exact ⟨h1.trans hstep.1, h2⟩

/-- Helper: folding over the body of an open AK2 loop (no AK2, no AK5)
keeps the loop open and appends exactly the body's AK3 and AK4 notes to
the loop accumulators. -/
theorem foldl_mid_accum (m : ErrorCodeMapper) (all : List Seg) :
    ∀ (l : List Seg) (st : PipeState) (a : AK2Segment), st.current_ak2 = some a →
      (∀ s ∈ l, s.ak2? = none ∧ s.ak5? = none) →
      (l.foldl (pipe_step m all) st).transaction_validations =
        st.transaction_validations ∧
      (l.foldl (pipe_step m all) st).current_ak2 = some a ∧
      (l.foldl (pipe_step m all) st).current_ak3_segments =
        st.current_ak3_segments ++ l.filterMap Seg.ak3? ∧
      (l.foldl (pipe_step m all) st).current_ak4_segments =
        st.current_ak4_segments ++ l.filterMap Seg.ak4?
  | [], st, a, hcur, _ => ⟨rfl, hcur, by simp, by simp⟩
  | seg :: rest, st, a, hcur, h => by
    obtain ⟨hs2, hs5⟩ := h seg (List.mem_cons_self _ _)
    have hrest : ∀ s ∈ rest, s.ak2? = none ∧ s.ak5? = none :=
      fun s hs => h s (List.mem_cons_of_mem _ hs)
    simp only [List.foldl_cons]
    cases seg with
    | ak2 s => simp [Seg.ak2?] at hs2
    | ak5 s => simp [Seg.ak5?] at hs5
    | isa s =>
      rw [show pipe_step m all st (Seg.isa s) = { st with isa := some s } from rfl]
      obtain ⟨a1, a2, a3, a4⟩ := foldl_mid_accum m all rest
        { st with isa := some s } a hcur hrest
      exact ⟨a1, a2, by rw [a3]; simp [Seg.ak3?], by rw [a4]; simp [Seg.ak4?]⟩
    | ak1 s =>
      rw [show pipe_step m all st (Seg.ak1 s) = { st with ak1 := some s } from rfl]
      obtain ⟨a1, a2, a3, a4⟩ := foldl_mid_accum m all rest
        { st with ak1 := some s } a hcur hrest
      exact ⟨a1, a2, by rw [a3]; simp [Seg.ak3?], by rw [a4]; simp [Seg.ak4?]⟩
    | ak9 s =>
      rw [show pipe_step m all st (Seg.ak9 s) = { st with ak9 := some s } from rfl]
      obtain ⟨a1, a2, a3, a4⟩ := foldl_mid_accum m all rest
        { st with ak9 := some s } a hcur hrest
      exact ⟨a1, a2, by rw [a3]; simp [Seg.ak3?], by rw [a4]; simp [Seg.ak4?]⟩
    | other =>
      rw [show pipe_step m all st Seg.other = st from rfl]
      obtain ⟨a1, a2, a3, a4⟩ := foldl_mid_accum m all rest st a hcur hrest
      exact ⟨a1, a2, by rw [a3]; simp [Seg.ak3?], by rw [a4]; simp [Seg.ak4?]⟩
    | ak3 s =>
      rw [show pipe_step m all st (Seg.ak3 s) =
        { st with current_ak3_segments := st.current_ak3_segments ++ [s] } from rfl]
      obtain ⟨a1, a2, a3, a4⟩ := foldl_mid_accum m all rest
        { st with current_ak3_segments := st.current_ak3_segments ++ [s] } a hcur hrest
      exact ⟨a1, a2, by rw [a3]; simp [Seg.ak3?], by rw [a4]; simp [Seg.ak4?]⟩
    | ak4 s =>
      rw [show pipe_step m all st (Seg.ak4 s) =
        { st with current_ak4_segments := st.current_ak4_segments ++ [s] } from rfl]
      obtain ⟨a1, a2, a3, a4⟩ := foldl_mid_accum m all rest
        { st with current_ak4_segments := st.current_ak4_segments ++ [s] } a hcur hrest
      exact ⟨a1, a2, by rw [a3]; simp [Seg.ak3?], by rw [a4]; simp [Seg.ak4?]⟩

/-- Helper: scanning a stream of well-formed AK2 loops appends, for each
loop in order, exactly one transaction validation built from that loop's
AK2, its closing AK5, and the notes inside its body; the scan ends with
no loop open. -/
theorem foldl_assembleLoops (m : ErrorCodeMapper) (all : List Seg) :
    ∀ (loops : List LoopShape) (tail : List Seg) (st : PipeState),
      st.current_ak2 = none →
      (∀ lp ∈ loops, (∀ s ∈ lp.pre, s.ak2? = none) ∧
        (∀ s ∈ lp.mid, s.ak2? = none ∧ s.ak5? = none)) →
      (∀ s ∈ tail, s.ak2? = none) →
      ((assembleLoops loops tail).foldl (pipe_step m all) st).transaction_validations =
        st.transaction_validations ++ loopValidations m loops ∧
      ((assembleLoops loops tail).foldl (pipe_step m all) st).current_ak2 = none
  | [], tail, st, hcur, _, htail => by
    obtain ⟨h1, h2⟩ := foldl_tvs_no_ak2 m all tail st hcur htail
    exact ⟨by simpa [assembleLoops, loopValidations] using h1, h2⟩
  | lp :: rest, tail, st, hcur, hloops, htail => by
    obtain ⟨hpre, hmid⟩ := hloops lp (List.mem_cons_self _ _)
    have hrest : ∀ l ∈ rest, (∀ s ∈ l.pre, s.ak2? = none) ∧
        (∀ s ∈ l.mid, s.ak2? = none ∧ s.ak5? = none) :=
      fun l hl => hloops l (List.mem_cons_of_mem _ hl)
    obtain ⟨p1, p2⟩ := foldl_tvs_no_ak2 m all lp.pre st hcur hpre
    simp only [assembleLoops]
    rw [List.foldl_append, List.foldl_cons]
    rw [show pipe_step m all (lp.pre.foldl (pipe_step m all) st) (Seg.ak2 lp.hd) = { lp.pre.foldl (pipe_step m all) st with current_ak2 := some lp.hd, current_ak3_segments := [], current_ak4_segments := [] } from by simp [pipe_step, p2]]
    rw [List.foldl_append, List.foldl_cons]
    obtain ⟨m1, m2, m3, m4⟩ := foldl_mid_accum m all lp.mid { lp.pre.foldl (pipe_step m all) st with current_ak2 := some lp.hd, current_ak3_segments := [], current_ak4_segments := [] } lp.hd rfl hmid
    set st3 := lp.mid.foldl (pipe_step m all) { lp.pre.foldl (pipe_step m all) st with current_ak2 := some lp.hd, current_ak3_segments := [], current_ak4_segments := [] } with hst3
    rw [show pipe_step m all st3 (Seg.ak5 lp.close) = { st3 with transaction_validations := st3.transaction_validations ++ [validate_transaction_set m lp.hd lp.close st3.current_ak3_segments st3.current_ak4_segments], current_ak2 := none, current_ak3_segments := [], current_ak4_segments := [] } from by simp [pipe_step, m2]]
    obtain ⟨r1, r2⟩ := foldl_assembleLoops m all rest tail { st3 with transaction_validations := st3.transaction_validations ++ [validate_transaction_set m lp.hd lp.close st3.current_ak3_segments st3.current_ak4_segments], current_ak2 := none, current_ak3_segments := [], current_ak4_segments := [] } rfl hrest htail
    refine ⟨?_, r2⟩
    rw [r1]
    simp only [m1, m3, m4, p1]
    simp [loopValidations]

/-- C1 counterexample: in the stream `AK2("0001"), AK2("0002"), AK5("A")`
the scan produces two finalized loops although the stream contains a
single AK5 segment, so that AK5 closes both loops — refuting "no AK5
closes more than one loop" (and with it the claim as stated, which
requires each finalization to consume a distinct first-following AK5). -/
theorem ak5_closes_two_loops_counterexample :
    (pipeline_transaction_validations plainMapper
        [Seg.ak2 ⟨"850", "0001"⟩, Seg.ak2 ⟨"850", "0002"⟩,
         Seg.ak5 ⟨"A", none, none, none, none, none⟩]).map
      (fun tv => (tv.transaction_control_number, tv.ack_code)) =
      [("0001", "A"), ("0002", "A")] ∧
    ([Seg.ak2 ⟨"850", "0001"⟩, Seg.ak2 ⟨"850", "0002"⟩,
      Seg.ak5 ⟨"A", none, none, none, none, none⟩].filterMap Seg.ak5?).length = 1 :=
  ⟨rfl, rfl⟩

/-- C1 amended: for every stream of well-formed AK2 loops — each AK2
followed by its closing AK5 before the next AK2 begins, with AK3/AK4
segments interleaving freely inside the open loop — the scan finalizes
each AK2 loop exactly once, closing it with the first AK5 occurring after
that AK2 (its own `close`, the loop body containing no AK5), attaching
exactly the AK3/AK4 segments seen while that loop was open; distinct
loops consume distinct AK5 occurrences.  When two AK2s are open
simultaneously (no AK5 between them) the scan instead lets one AK5 close
both loops, as the counterexample shows. -/
theorem ak2_loop_reconstruction (m : ErrorCodeMapper) (loops : List LoopShape)
    (tail : List Seg)
    (hloops : ∀ lp ∈ loops, (∀ s ∈ lp.pre, s.ak2? = none) ∧
      (∀ s ∈ lp.mid, s.ak2? = none ∧ s.ak5? = none))
    (htail : ∀ s ∈ tail, s.ak2? = none) :
    pipeline_transaction_validations m (assembleLoops loops tail) =
      loopValidations m loops := by
  have h := foldl_assembleLoops m (assembleLoops loops tail) loops tail {} rfl
    hloops htail
  simpa [pipeline_transaction_validations] using h.1

/-- C1 witness: a concrete two-loop stream reconstructs into exactly its
two loop validations. -/
theorem ak2_loop_reconstruction_witness :
    pipeline_transaction_validations plainMapper
      (assembleLoops
        [⟨[], ⟨"850", "0001"⟩, [Seg.ak3 ⟨"REF", 3, some "8"⟩],
          ⟨"R", some "5", none, none, none, none⟩⟩,
         ⟨[Seg.other], ⟨"856", "0002"⟩, [Seg.ak4 ⟨2, some 127, "1", some "XX"⟩],
          ⟨"A", none, none, none, none, none⟩⟩] []) =
      loopValidations plainMapper
        [⟨[], ⟨"850", "0001"⟩, [Seg.ak3 ⟨"REF", 3, some "8"⟩],
          ⟨"R", some "5", none, none, none, none⟩⟩,
         ⟨[Seg.other], ⟨"856", "0002"⟩, [Seg.ak4 ⟨2, some 127, "1", some "XX"⟩],
          ⟨"A", none, none, none, none, none⟩⟩] :=
  ak2_loop_reconstruction plainMapper _ _ (by decide) (by decide)

/-! ## C4 — multiple functional groups in one document -/

/-- Helper: loop-local segments carry none of the loop or register
constructors. -/
theorem Seg.isNote_spec (s : Seg) (h : s.isNote = true) :
    s.isa? = none ∧ s.ak1? = none ∧ s.ak2? = none ∧ s.ak5? = none ∧
      s.ak9? = none := by
  cases s <;> simp_all [Seg.isNote, Seg.isa?, Seg.ak1?, Seg.ak2?, Seg.ak5?, Seg.ak9?]

/-- Helper: membership in an assembled loop stream. -/
theorem mem_assembleLoops :
    ∀ (loops : List LoopShape) (tail : List Seg) (s : Seg),
      s ∈ assembleLoops loops tail →
      (∃ lp ∈ loops, s ∈ lp.pre ∨ s ∈ lp.mid ∨ s = Seg.ak2 lp.hd ∨
        s = Seg.ak5 lp.close) ∨ s ∈ tail
  | [], _, s, h => Or.inr h
  | lp :: rest, tail, s, h => by
    simp only [assembleLoops, List.mem_append, List.mem_cons] at h
    rcases h with h | h | h | h | h
    · exact Or.inl ⟨lp, List.mem_cons_self _ _, Or.inl h⟩
    · exact Or.inl ⟨lp, List.mem_cons_self _ _, Or.inr (Or.inr (Or.inl h))⟩
    · exact Or.inl ⟨lp, List.mem_cons_self _ _, Or.inr (Or.inl h)⟩
    · exact Or.inl ⟨lp, List.mem_cons_self _ _, Or.inr (Or.inr (Or.inr h))⟩
    · rcases mem_assembleLoops rest tail s h with ⟨l, hl, hc⟩ | ht
      · exact Or.inl ⟨l, List.mem_cons_of_mem _ hl, hc⟩
      · exact Or.inr ht

/-- Helper: a loop stream built solely from note segments contains no
ISA, AK1 or AK9 segment. -/
theorem assembleLoops_notes (loops : List LoopShape)
    (h : ∀ lp ∈ loops, (∀ s ∈ lp.pre, s.isNote = true) ∧
      (∀ s ∈ lp.mid, s.isNote = true)) :
    ∀ s ∈ assembleLoops loops [],
      s.isa? = none ∧ s.ak1? = none ∧ s.ak9? = none := by
  intro s hs
  rcases mem_assembleLoops loops [] s hs with ⟨lp, hlp, hc⟩ | ht
  · rcases hc with hc | hc | hc | hc
    · obtain ⟨q1, q2, _, _, q5⟩ := Seg.isNote_spec s ((h lp hlp).1 s hc)
      exact ⟨q1, q2, q5⟩
    · obtain ⟨q1, q2, _, _, q5⟩ := Seg.isNote_spec s ((h lp hlp).2 s hc)
      exact ⟨q1, q2, q5⟩
    · subst hc; exact ⟨rfl, rfl, rfl⟩
    · subst hc; exact ⟨rfl, rfl, rfl⟩
  · cases ht

/-- Helper: the scan of a two-group stream ends with the last ISA/AK1/AK9
seen in its registers and with both groups' transaction validations
pooled into one list. -/
theorem two_group_scan (m : ErrorCodeMapper) (all : List Seg) (i : ISASegment)
    (g1 g2 : AK1Segment) (n1 n2 : AK9Segment) (loops1 loops2 : List LoopShape)
    (h1 : ∀ lp ∈ loops1, (∀ s ∈ lp.pre, s.isNote = true) ∧
      (∀ s ∈ lp.mid, s.isNote = true))
    (h2 : ∀ lp ∈ loops2, (∀ s ∈ lp.pre, s.isNote = true) ∧
      (∀ s ∈ lp.mid, s.isNote = true)) :
    ((twoGroupStream i g1 g2 n1 n2 loops1 loops2).foldl (pipe_step m all) {}).isa = some i ∧
    ((twoGroupStream i g1 g2 n1 n2 loops1 loops2).foldl (pipe_step m all) {}).ak1 = some g2 ∧
    ((twoGroupStream i g1 g2 n1 n2 loops1 loops2).foldl (pipe_step m all) {}).ak9 = some n2 ∧
    ((twoGroupStream i g1 g2 n1 n2 loops1 loops2).foldl (pipe_step m all) {}).transaction_validations =
      loopValidations m loops1 ++ loopValidations m loops2 := by
  have hl1 : ∀ lp ∈ loops1, (∀ s ∈ lp.pre, s.ak2? = none) ∧
      (∀ s ∈ lp.mid, s.ak2? = none ∧ s.ak5? = none) := by
    intro lp hlp
    refine ⟨fun s hs => (Seg.isNote_spec s ((h1 lp hlp).1 s hs)).2.2.1,
      fun s hs => ⟨(Seg.isNote_spec s ((h1 lp hlp).2 s hs)).2.2.1,
        (Seg.isNote_spec s ((h1 lp hlp).2 s hs)).2.2.2.1⟩⟩
  have hl2 : ∀ lp ∈ loops2, (∀ s ∈ lp.pre, s.ak2? = none) ∧
      (∀ s ∈ lp.mid, s.ak2? = none ∧ s.ak5? = none) := by
    intro lp hlp
    refine ⟨fun s hs => (Seg.isNote_spec s ((h2 lp hlp).1 s hs)).2.2.1,
      fun s hs => ⟨(Seg.isNote_spec s ((h2 lp hlp).2 s hs)).2.2.1,
        (Seg.isNote_spec s ((h2 lp hlp).2 s hs)).2.2.2.1⟩⟩
  have hb1 := assembleLoops_notes loops1 h1
  have hb2 := assembleLoops_notes loops2 h2
  simp only [twoGroupStream]
  rw [List.foldl_cons, List.foldl_cons,
    show pipe_step m all (pipe_step m all {} (Seg.isa i)) (Seg.ak1 g1) =
      (⟨some i, some g1, none, [], none, [], []⟩ : PipeState) from rfl,
    List.foldl_append]
  set stA := (assembleLoops loops1 []).foldl (pipe_step m all)
    (⟨some i, some g1, none, [], none, [], []⟩ : PipeState) with hA
  obtain ⟨a_tvs, a_cur⟩ := foldl_assembleLoops m all loops1 []
    (⟨some i, some g1, none, [], none, [], []⟩ : PipeState) rfl hl1
    (by intro s hs; cases hs)
  have a_isa : stA.isa = some i :=
    (foldl_register_eq m all (assembleLoops loops1 [])
      (⟨some i, some g1, none, [], none, [], []⟩ : PipeState)).1
      (fun s hs => (hb1 s hs).1)
  rw [List.foldl_cons, List.foldl_cons,
    show pipe_step m all (pipe_step m all stA (Seg.ak9 n1)) (Seg.ak1 g2) =
      { stA with ak9 := some n1, ak1 := some g2 } from rfl,
    List.foldl_append]
  set stB := (assembleLoops loops2 []).foldl (pipe_step m all)
    { stA with ak9 := some n1, ak1 := some g2 } with hB
  obtain ⟨b_tvs, b_cur⟩ := foldl_assembleLoops m all loops2 []
    { stA with ak9 := some n1, ak1 := some g2 } a_cur hl2
    (by intro s hs; cases hs)
  have hregB := foldl_register_eq m all (assembleLoops loops2 [])
    { stA with ak9 := some n1, ak1 := some g2 }
  have b_isa : stB.isa = stA.isa := hregB.1 (fun s hs => (hb2 s hs).1)
  have b_ak1 : stB.ak1 = some g2 := hregB.2.1 (fun s hs => (hb2 s hs).2.1)
  rw [show ([Seg.ak9 n2]).foldl (pipe_step m all) stB =
    { stB with ak9 := some n2 } from rfl]
  refine ⟨?_, ?_, ?_, ?_⟩
  · show stB.isa = some i
    rw [b_isa, a_isa]
  · show stB.ak1 = some g2
    exact b_ak1
  · rfl
  · show stB.transaction_validations = _
    rw [b_tvs]
    show stA.transaction_validations ++ loopValidations m loops2 = _
    rw [a_tvs]
    rfl

/-- C4 counterexample: a document with two complete AK1..AK9 loops yields
one single merged `ValidationResult`: its functional group carries the
second group's identifiers while its transaction validations pool both
groups' transactions (`0001` belongs to the first group, `0002` to the
second), so the two groups are not accumulated independently. -/
theorem two_group_counterexample :
    (run_validation_pipeline_segments plainMapper
        [Seg.isa ⟨"SND", "RCV", "000000001"⟩, Seg.ak1 ⟨"PO", "1111"⟩,
         Seg.ak2 ⟨"850", "0001"⟩, Seg.ak5 ⟨"A", none, none, none, none, none⟩,
         Seg.ak9 ⟨"A", 1, 1, 1, none, none, none, none, none⟩,
         Seg.ak1 ⟨"IN", "2222"⟩, Seg.ak2 ⟨"810", "0002"⟩,
         Seg.ak5 ⟨"A", none, none, none, none, none⟩,
         Seg.ak9 ⟨"A", 1, 1, 1, none, none, none, none, none⟩]).map
      (fun r => (r.functional_group.group_control_number,
        r.functional_group.transaction_validations.map
          (·.transaction_control_number))) =
      .ok ("2222", ["0001", "0002"]) :=
  rfl

/-- C4 amended: on a two-group document the pipeline produces one merged
result: the interchange fields come from the ISA, the functional-group
identifiers and acknowledgment code from the **last** AK1/AK9 pair seen,
and the transaction validations of both groups are pooled, in stream
order, into that single functional group. -/
theorem two_group_merged_pipeline (m : ErrorCodeMapper) (i : ISASegment)
    (g1 g2 : AK1Segment) (n1 n2 : AK9Segment) (loops1 loops2 : List LoopShape)
    (h1 : ∀ lp ∈ loops1, (∀ s ∈ lp.pre, s.isNote = true) ∧
      (∀ s ∈ lp.mid, s.isNote = true))
    (h2 : ∀ lp ∈ loops2, (∀ s ∈ lp.pre, s.isNote = true) ∧
      (∀ s ∈ lp.mid, s.isNote = true)) :
    run_validation_pipeline_segments m (twoGroupStream i g1 g2 n1 n2 loops1 loops2) =
      .ok (validate_997 i g2 n2
        (loopValidations m loops1 ++ loopValidations m loops2)) := by
  obtain ⟨ha, hb, hc, hd⟩ := two_group_scan m
    (twoGroupStream i g1 g2 n1 n2 loops1 loops2) i g1 g2 n1 n2 loops1 loops2 h1 h2
  simp only [run_validation_pipeline_segments]
  rw [ha, hb, hc, hd]

/-- C4 witness: a concrete two-group document produces the merged result
described by the amended claim. -/
theorem two_group_merged_pipeline_witness :
    run_validation_pipeline_segments plainMapper
      (twoGroupStream ⟨"SND", "RCV", "000000001"⟩ ⟨"PO", "1111"⟩ ⟨"IN", "2222"⟩
        ⟨"A", 1, 1, 1, none, none, none, none, none⟩
        ⟨"E", 2, 2, 1, none, none, none, none, none⟩
        [⟨[], ⟨"850", "0001"⟩, [], ⟨"A", none, none, none, none, none⟩⟩]
        [⟨[], ⟨"810", "0002"⟩, [], ⟨"R", none, none, none, none, none⟩⟩]) =
      .ok (validate_997 ⟨"SND", "RCV", "000000001"⟩ ⟨"IN", "2222"⟩
        ⟨"E", 2, 2, 1, none, none, none, none, none⟩
        (loopValidations plainMapper
            [⟨[], ⟨"850", "0001"⟩, [], ⟨"A", none, none, none, none, none⟩⟩] ++
          loopValidations plainMapper
            [⟨[], ⟨"810", "0002"⟩, [], ⟨"R", none, none, none, none, none⟩⟩])) :=
  two_group_merged_pipeline plainMapper _ _ _ _ _ _ _ (by decide) (by decide)

/-! ## C5 — reconciliation of a functional group -/

/-- Helper: an option-valued `mapM` over a list on which the function
always succeeds returns the pointwise results. -/
theorem mapM_option_spec {α β : Type} (f : α → Option β) :
    ∀ l : List α, (∀ a ∈ l, (f a).isSome = true) →
      ∃ r : List β, l.mapM f = some r ∧ r.length = l.length ∧
        ∀ i (h1 : i < l.length) (h2 : i < r.length),
          f (l.get ⟨i, h1⟩) = some (r.get ⟨i, h2⟩)
  | [], _ => ⟨[], rfl, rfl, fun i h1 _ => absurd h1 (by simp)⟩
  | a :: l, h => by
    obtain ⟨b, hb⟩ := Option.isSome_iff_exists.mp (h a (List.mem_cons_self _ _))
    obtain ⟨r, hr, hlen, hidx⟩ :=
      mapM_option_spec f l (fun x hx => h x (List.mem_cons_of_mem _ hx))
    refine ⟨b :: r, ?_, by simp [hlen], ?_⟩
    · rw [List.mapM_cons, hb, hr]; rfl
    · intro i h1 h2
      cases i with
      | zero => simpa using hb
      | succ n => exact hidx n (by simpa using h1) (by simpa using h2)

/-- Helper: a lookup in a Python dict built from a list succeeds exactly
for the keys of the list's elements. -/
theorem pyDictGet_isSome {α : Type} (key : α → String) (txs : List α) (k : String) :
    (pyDictGet key txs k).isSome = true ↔ k ∈ txs.map key := by
  simp only [pyDictGet, List.getLast?_isSome, ne_eq, List.filter_eq_nil_iff]
  push_neg
  simp only [decide_eq_true_eq, List.mem_map]

/-- Helper: membership in the iteration order of
`reconcile_functional_group` is membership in the union of the outbound
and acknowledgment key lists. -/
theorem mem_sorted_control_numbers (fgv : FunctionalGroupValidation)
    (og : OutboundFunctionalGroup) (k : String) :
    k ∈ sorted_control_numbers fgv og ↔
      k ∈ og.transactions.map (·.transaction_control_number) ∨
      k ∈ fgv.transaction_validations.map (·.transaction_control_number) := by
  simp [sorted_control_numbers, List.mem_mergeSort, List.mem_dedup, List.mem_append]

/-- C5: `reconcile_transaction` classifies both-present-equal-IDs as
MATCHED, both-present-differing-IDs as CONTROL_NUMBER_MISMATCH with a
reason naming both IDs, outbound-only as MISSING_ACK, ack-only as
UNEXPECTED_ACK, and the both-absent case is an error (no record);
`reconcile_functional_group` iterates the sorted union of both key sets
and produces exactly one `reconcile_transaction` record per key. -/
theorem reconcile_functional_group_spec :
    (∀ (o : OutboundTransaction) (a : TransactionSetValidation), o.transaction_set_id = a.transaction_set_id → reconcile_transaction (some o) (some a) = some { outbound_transaction := some o, acknowledgment := some a, status := .matched, mismatch_reason := none }) ∧
    (∀ (o : OutboundTransaction) (a : TransactionSetValidation), o.transaction_set_id ≠ a.transaction_set_id → reconcile_transaction (some o) (some a) = some { outbound_transaction := some o, acknowledgment := some a, status := .controlNumberMismatch, mismatch_reason := some ("Transaction set ID mismatch: expected " ++ o.transaction_set_id ++ ", got " ++ a.transaction_set_id) }) ∧
    (∀ o : OutboundTransaction, reconcile_transaction (some o) none = some { outbound_transaction := some o, acknowledgment := none, status := .missingAck, mismatch_reason := some ("No acknowledgment received for transaction " ++ o.transaction_control_number) }) ∧
    (∀ a : TransactionSetValidation, reconcile_transaction none (some a) = some { outbound_transaction := none, acknowledgment := some a, status := .unexpectedAck, mismatch_reason := some ("Unexpected acknowledgment for transaction " ++ a.transaction_control_number) }) ∧
    reconcile_transaction none none = none ∧
    (∀ (fgv : FunctionalGroupValidation) (og : OutboundFunctionalGroup),
      List.Sorted (· ≤ ·) (sorted_control_numbers fgv og) ∧
      ∃ trs, reconcile_functional_group fgv og = some { outbound_group := some og, group_control_number := fgv.group_control_number, functional_id_code := fgv.functional_id_code, transaction_reconciliations := trs } ∧
        trs.length = (sorted_control_numbers fgv og).length ∧
        ∀ i (h1 : i < (sorted_control_numbers fgv og).length) (h2 : i < trs.length),
          reconcile_transaction
            (pyDictGet (·.transaction_control_number) og.transactions
              ((sorted_control_numbers fgv og).get ⟨i, h1⟩))
            (pyDictGet (·.transaction_control_number) fgv.transaction_validations
              ((sorted_control_numbers fgv og).get ⟨i, h1⟩)) =
            some (trs.get ⟨i, h2⟩)) := by
  refine ⟨?_, ?_, fun o => rfl, fun a => rfl, rfl, ?_⟩
  · intro o a h
    simp [reconcile_transaction, h]
  · intro o a h
    simp [reconcile_transaction, h]
  · intro fgv og
    constructor
    · exact List.sorted_mergeSort' _
    · have hall : ∀ k ∈ sorted_control_numbers fgv og,
          (reconcile_transaction
            (pyDictGet (·.transaction_control_number) og.transactions k)
            (pyDictGet (·.transaction_control_number) fgv.transaction_validations k)).isSome = true := by
        intro k hk
        rcases hog : pyDictGet (·.transaction_control_number) og.transactions k with _ | o
        · rcases hag : pyDictGet (·.transaction_control_number)
              fgv.transaction_validations k with _ | a
          · exfalso
            rcases (mem_sorted_control_numbers fgv og k).mp hk with h | h
            · have h2 := (pyDictGet_isSome
                (·.transaction_control_number) og.transactions k).mpr h
              rw [hog] at h2
              simp at h2
            · have h2 := (pyDictGet_isSome
                (·.transaction_control_number) fgv.transaction_validations k).mpr h
              rw [hag] at h2
              simp at h2
          · rw [hog, hag]
            rfl
        · rcases hag : pyDictGet (·.transaction_control_number)
              fgv.transaction_validations k with _ | a
          · rw [hog, hag]
            rfl
          · rw [hog, hag]
            simp only [reconcile_transaction]
            split <;> rfl
      obtain ⟨trs, h1, h2, h3⟩ := mapM_option_spec
        (fun k => reconcile_transaction
          (pyDictGet (·.transaction_control_number) og.transactions k)
          (pyDictGet (·.transaction_control_number) fgv.transaction_validations k))
        (sorted_control_numbers fgv og) hall
      refine ⟨trs, ?_, h2, h3⟩
      simp only [reconcile_functional_group]
      rw [h1]

/-- C5 witness: an unacknowledged outbound transaction `5678`/`850`
yields MISSING_ACK, and a control-number match with differing
transaction-set IDs yields CONTROL_NUMBER_MISMATCH naming both IDs. -/
theorem reconcile_functional_group_spec_witness :
    reconcile_transaction (some ⟨"850", "5678", "99", "PO"⟩) none = some { outbound_transaction := some ⟨"850", "5678", "99", "PO"⟩, acknowledgment := none, status := .missingAck, mismatch_reason := some ("No acknowledgment received for transaction " ++ "5678") } ∧
    reconcile_transaction (some ⟨"850", "0001", "99", "PO"⟩) (some ⟨"810", "0001", .accepted, "A", 0, [], []⟩) = some { outbound_transaction := some ⟨"850", "0001", "99", "PO"⟩, acknowledgment := some ⟨"810", "0001", .accepted, "A", 0, [], []⟩, status := .controlNumberMismatch, mismatch_reason := some ("Transaction set ID mismatch: expected " ++ "850" ++ ", got " ++ "810") } :=
  ⟨reconcile_functional_group_spec.2.2.1 _,
    reconcile_functional_group_spec.2.1 _ _ (by decide)⟩

/-! ## C8 — tokenization -/

/-- Helper: stripping yields the empty string exactly on all-whitespace
input. -/
theorem pyStrip_eq_nil_iff (cs : List Char) :
    pyStrip cs = [] ↔ ∀ c ∈ cs, isPySpace c = true := by
  simp only [pyStrip, List.reverse_eq_nil_iff, List.dropWhile_eq_nil_iff,
    List.mem_reverse]
  constructor
  · intro h c hc
    have hc' : c ∈ cs.takeWhile isPySpace ++ cs.dropWhile isPySpace := by
      rw [List.takeWhile_append_dropWhile]
      exact hc
    rcases List.mem_append.mp hc' with h1 | h1
    · exact List.mem_takeWhile_imp h1
    · exact h c h1
  · intro h c hc
    exact h c ((List.dropWhile_sublist _).subset hc)

/-- Helper: filtering away CR and LF commutes with the CRLF-pair
removal. -/
theorem filter_replaceCRLF (f : Char → Bool) (hr : f '\r' = false)
    (hn : f '\n' = false) :
    ∀ cs, (replaceCRLF cs).filter f = cs.filter f
  | [] => rfl
  | [c] => rfl
  | c :: c' :: rest => by
    by_cases h : c = '\r' ∧ c' = '\n'
    · obtain ⟨h1, h2⟩ := h
      subst h1
      subst h2
      rw [show replaceCRLF ('\r' :: '\n' :: rest) = replaceCRLF rest from by
        simp [replaceCRLF]]
      rw [filter_replaceCRLF f hr hn rest]
      simp [List.filter_cons, hr, hn]
    · rw [show replaceCRLF (c :: c' :: rest) = c :: replaceCRLF (c' :: rest) from by
        simp [replaceCRLF, h]]
      rw [List.filter_cons, List.filter_cons, filter_replaceCRLF f hr hn (c' :: rest)]

/-- Helper: the three sequential replaces of the tokenizer remove exactly
the CR and LF characters. -/
theorem stripLineBreaks_eq_filter (cs : List Char) :
    stripLineBreaks cs = cs.filter (fun c => !(c = '\r' || c = '\n')) := by
  unfold stripLineBreaks removeChar
  rw [List.filter_filter]
  rw [filter_replaceCRLF _ (by decide) (by decide)]
  refine List.filter_congr ?_
  intro a _
  by_cases h1 : a = '\r' <;> by_cases h2 : a = '\n' <;> simp [h1, h2]

/-- Helper: a split never returns an empty list of pieces. -/
theorem pySplitChar_ne_nil (sep : Char) : ∀ cs, pySplitChar sep cs ≠ []
  | [] => by simp [pySplitChar]
  | c :: rest => by
    simp only [pySplitChar]
    cases h : pySplitChar sep rest with
    | nil => simp
    | cons p ps => by_cases hc : c = sep <;> simp [hc]

/-- Helper: no piece returned by a split contains the separator. -/
theorem mem_pySplitChar_not_sep (sep : Char) :
    ∀ cs p, p ∈ pySplitChar sep cs → sep ∉ p
  | [], p, h => by
    simp only [pySplitChar, List.mem_singleton] at h
    subst h
    simp
  | c :: rest, p, h => by
    simp only [pySplitChar] at h
    cases hsplit : pySplitChar sep rest with
    | nil => exact absurd hsplit (pySplitChar_ne_nil sep rest)
    | cons q qs =>
      rw [hsplit] at h
      have h' : p ∈ (if c = sep then [] :: q :: qs else (c :: q) :: qs) := h
      by_cases hc : c = sep
      · rw [if_pos hc] at h'
        rcases List.mem_cons.mp h' with rfl | h''
        · simp
        · exact mem_pySplitChar_not_sep sep rest p (by rw [hsplit]; exact h'')
      · rw [if_neg hc] at h'
        rcases List.mem_cons.mp h' with rfl | h''
        · intro hmem
          rcases List.mem_cons.mp hmem with h1 | h1
          · exact hc h1.symm
          · exact mem_pySplitChar_not_sep sep rest q
              (by rw [hsplit]; exact List.mem_cons_self _ _) h1
        · exact mem_pySplitChar_not_sep sep rest p
            (by rw [hsplit]; exact List.mem_cons_of_mem _ h'')

/-- Helper: stripping only discards characters. -/
theorem mem_pyStrip_subset (cs : List Char) (c : Char) (h : c ∈ pyStrip cs) :
    c ∈ cs := by
  simp only [pyStrip, List.mem_reverse] at h
  exact (List.dropWhile_sublist _).subset
    (List.mem_reverse.mp ((List.dropWhile_sublist _).subset h))

/-- Helper: characters of a rendered document are line characters or
line-ending characters. -/
theorem mem_renderLines :
    ∀ (ps : List (List Char × LineBreak)) (c : Char),
      c ∈ renderLines ps ↔ ∃ pr ∈ ps, c ∈ pr.1 ∨ c ∈ pr.2.chars
  | [], c => by
    rw [show renderLines [] = [] from rfl]
    constructor
    · intro h
      exact absurd h (List.not_mem_nil c)
    · rintro ⟨pr, hpr, _⟩
      exact absurd hpr (List.not_mem_nil pr)
  | (l, e) :: rest, c => by
    rw [show renderLines ((l, e) :: rest) = l ++ (e.chars ++ renderLines rest) from by
      simp [renderLines]]
    rw [List.mem_append, List.mem_append]
    constructor
    · rintro (h | h | h)
      · exact ⟨(l, e), List.mem_cons_self _ _, Or.inl h⟩
      · exact ⟨(l, e), List.mem_cons_self _ _, Or.inr h⟩
      · obtain ⟨pr, hpr, hc⟩ := (mem_renderLines rest c).mp h
        exact ⟨pr, List.mem_cons_of_mem _ hpr, hc⟩
    · rintro ⟨pr, hpr, hc⟩
      rcases List.mem_cons.mp hpr with rfl | hpr'
      · rcases hc with h | h
        · exact Or.inl h
        · exact Or.inr (Or.inl h)
      · exact Or.inr (Or.inr ((mem_renderLines rest c).mpr ⟨pr, hpr', hc⟩))

/-- Helper: every line-ending character is whitespace. -/
theorem lineBreak_chars_space (e : LineBreak) : ∀ c ∈ e.chars, isPySpace c = true := by
  cases e <;> decide

/-- Helper: after removing CR and LF, a rendered document depends only on
its lines, not on the chosen line-ending styles. -/
theorem filter_renderLines :
    ∀ ps : List (List Char × LineBreak),
      (renderLines ps).filter (fun c => !(c = '\r' || c = '\n')) =
        ((ps.map Prod.fst).map
          (List.filter (fun c => !(c = '\r' || c = '\n')))).flatten
  | [] => rfl
  | (l, e) :: rest => by
    rw [show renderLines ((l, e) :: rest) = l ++ (e.chars ++ renderLines rest) from by
      simp [renderLines]]
    rw [List.filter_append, List.filter_append, filter_renderLines rest]
    have he : (e.chars.filter (fun c => !(c = '\r' || c = '\n'))) = [] := by
      cases e <;> rfl
    rw [he]
    simp

/-- Helper: a rendered document is all-whitespace exactly when all its
lines are. -/
theorem renderLines_all_space (ps : List (List Char × LineBreak)) :
    (∀ c ∈ renderLines ps, isPySpace c = true) ↔
      (∀ l ∈ ps.map Prod.fst, ∀ c ∈ l, isPySpace c = true) := by
  constructor
  · intro h l hl c hc
    obtain ⟨pr, hpr, hfst⟩ := List.mem_map.mp hl
    exact h c ((mem_renderLines ps c).mpr ⟨pr, hpr, Or.inl (hfst ▸ hc)⟩)
  · intro h c hc
    rcases (mem_renderLines ps c).mp hc with ⟨pr, hpr, hc1 | hc1⟩
    · exact h pr.1 (List.mem_map_of_mem _ hpr) c hc1
    · exact lineBreak_chars_space pr.2 c hc1

/-- C8: `tokenize_content` fails (with the empty-input error, its only
failure) iff the content is empty or all-whitespace; the line-break
removal step removes exactly the CR and LF characters before splitting;
every returned segment is non-empty and contains no occurrence of the
segment terminator; and two documents with the same lines but different
line-ending styles (Windows, Unix, Mac, or mixed) tokenize identically
when `preserve_line_breaks` is false. -/
theorem tokenize_content_spec :
    (∀ (cfg : ParserConfig) (content : List Char) (dOpt : Option Delimiters)
      (e : ParserError),
      tokenize_content cfg content dOpt = .error e ↔
        e = .emptyFile ∧ pyStrip content = []) ∧
    (∀ content : List Char,
      stripLineBreaks content = content.filter (fun c => !(c = '\r' || c = '\n'))) ∧
    (∀ (cfg : ParserConfig) (content : List Char) (d : Delimiters)
      (segs : List (List Char)),
      tokenize_content cfg content (some d) = .ok segs →
      ∀ sg ∈ segs, sg ≠ [] ∧ d.segment ∉ sg) ∧
    (∀ (cfg : ParserConfig) (d : Delimiters) (ps qs : List (List Char × LineBreak)),
      cfg.preserve_line_breaks = false →
      ps.map Prod.fst = qs.map Prod.fst →
      tokenize_content cfg (renderLines ps) (some d) =
        tokenize_content cfg (renderLines qs) (some d)) := by
  refine ⟨?_, stripLineBreaks_eq_filter, ?_, ?_⟩
  · intro cfg content dOpt e
    by_cases hcond : (content.isEmpty || (pyStrip content).isEmpty) = true
    · have hstrip : pyStrip content = [] := by
        rcases Bool.or_eq_true_iff.mp hcond with h | h
        · rw [List.isEmpty_iff.mp h]
          rfl
        · exact List.isEmpty_iff.mp h
      simp [tokenize_content, hcond, hstrip, eq_comm]
    · have hcf : (content.isEmpty || (pyStrip content).isEmpty) = false :=
        Bool.eq_false_iff.mpr hcond
      have hstrip : pyStrip content ≠ [] := by
        intro hs
        apply hcond
        rw [hs]
        simp
      simp [tokenize_content, hcf, hstrip]
  · intro cfg content d segs h sg hsg
    by_cases hcond : (content.isEmpty || (pyStrip content).isEmpty) = true
    · simp [tokenize_content, hcond] at h
    · have hcf : (content.isEmpty || (pyStrip content).isEmpty) = false :=
        Bool.eq_false_iff.mpr hcond
      simp only [tokenize_content, hcf, Bool.false_eq_true, if_false] at h
      rw [Except.ok.injEq] at h
      subst h
      obtain ⟨p, hp, hps⟩ := List.mem_filterMap.mp hsg
      by_cases hE : (if cfg.trim_whitespace = true then pyStrip p else p).isEmpty = true
      · rw [if_pos hE] at hps
        exact absurd hps (by simp)
      · rw [if_neg hE] at hps
        rw [Option.some.injEq] at hps
        subst hps
        refine ⟨fun hnil => hE (by rw [hnil]; rfl), ?_⟩
        intro hmem
        apply mem_pySplitChar_not_sep d.segment _ p hp
        by_cases htw : cfg.trim_whitespace = true
        · rw [if_pos htw] at hmem
          exact mem_pyStrip_subset p d.segment hmem
        · rw [if_neg htw] at hmem
          exact hmem
  · intro cfg d ps qs hplb hfst
    have hstrip : (pyStrip (renderLines ps) = []) ↔ (pyStrip (renderLines qs) = []) := by
      rw [pyStrip_eq_nil_iff, pyStrip_eq_nil_iff, renderLines_all_space,
        renderLines_all_space, hfst]
    have hbody : stripLineBreaks (renderLines ps) = stripLineBreaks (renderLines qs) := by
      rw [stripLineBreaks_eq_filter, stripLineBreaks_eq_filter,
        filter_renderLines, filter_renderLines, hfst]
    by_cases hcond : ((renderLines ps).isEmpty || (pyStrip (renderLines ps)).isEmpty) = true
    · have hsp : pyStrip (renderLines ps) = [] := by
        rcases Bool.or_eq_true_iff.mp hcond with h | h
        · rw [List.isEmpty_iff.mp h]
          rfl
        · exact List.isEmpty_iff.mp h
      have hsq : pyStrip (renderLines qs) = [] := hstrip.mp hsp
      have hcondq : ((renderLines qs).isEmpty || (pyStrip (renderLines qs)).isEmpty) = true := by
        rw [hsq]
        simp
      simp [tokenize_content, hcond, hcondq]
    · have hcf : ((renderLines ps).isEmpty || (pyStrip (renderLines ps)).isEmpty) = false :=
        Bool.eq_false_iff.mpr hcond
      have hcondq : ((renderLines qs).isEmpty || (pyStrip (renderLines qs)).isEmpty) = false := by
        refine Bool.eq_false_iff.mpr ?_
        intro hq
        apply hcond
        have hsq : pyStrip (renderLines qs) = [] := by
          rcases Bool.or_eq_true_iff.mp hq with h | h
          · rw [List.isEmpty_iff.mp h]
            rfl
          · exact List.isEmpty_iff.mp h
        rw [hstrip.mpr hsq]
        simp
      simp only [tokenize_content, hcf, hcondq, Bool.false_eq_true, if_false]
      rw [show (if !cfg.preserve_line_breaks then stripLineBreaks (renderLines ps)
          else renderLines ps) = stripLineBreaks (renderLines ps) from by
        rw [hplb]; rfl]
      rw [show (if !cfg.preserve_line_breaks then stripLineBreaks (renderLines qs)
          else renderLines qs) = stripLineBreaks (renderLines qs) from by
        rw [hplb]; rfl]
      rw [hbody]

/-- C8 witness: the tokenizer's output on `AB*1~CD*2~` consists of
non-empty terminator-free segments, and two renderings of the same two
lines with different line-ending styles tokenize identically. -/
theorem tokenize_content_spec_witness :
    ("AB*1".data ≠ [] ∧ ('~' : Char) ∉ "AB*1".data) ∧
    tokenize_content {} (renderLines [("AB*1~".data, .crlf), ("CD*2~".data, .lf)])
        (some ⟨'*', '~', ':', none⟩) =
      tokenize_content {} (renderLines [("AB*1~".data, .cr), ("CD*2~".data, .crlf)])
        (some ⟨'*', '~', ':', none⟩) :=
  ⟨tokenize_content_spec.2.2.1 {} "AB*1~CD*2~".data ⟨'*', '~', ':', none⟩
      ["AB*1".data, "CD*2".data] (by rfl) "AB*1".data (by decide),
    tokenize_content_spec.2.2.2 {} ⟨'*', '~', ':', none⟩ _ _ rfl (by decide)⟩

/-! ## C10 — auto-detection failures fall back to defaults -/

/-- C10: when `tokenize_content` is called without caller-supplied
delimiters and auto-detection is enabled, non-blank content always
tokenizes successfully, and whenever delimiter detection fails (any
error) the tokenizer behaves exactly as if it had been handed the
configured default delimiters — which for the default configuration are
`('*', '~', ':', '^')`. -/
theorem tokenize_autodetect_fallback :
    (∀ (cfg : ParserConfig) (content : List Char),
      cfg.auto_detect_delimiters = true →
      pyStrip content ≠ [] →
      (∃ segs, tokenize_content cfg content none = .ok segs) ∧
      (∀ e, detect_from_file_content content = .error e →
        tokenize_content cfg content none =
          tokenize_content cfg content
            (some (use_default_delimiters cfg.default_delimiters)))) ∧
    use_default_delimiters ({} : ParserConfig).default_delimiters =
      { element := '*', segment := '~', sub_element := ':', repetition := some '^' } := by
  refine ⟨?_, rfl⟩
  intro cfg content hauto hstrip
  have hcf : (content.isEmpty || (pyStrip content).isEmpty) = false := by
    rcases content with _ | ⟨a, t⟩
    · exact absurd rfl hstrip
    · simp only [List.isEmpty_cons, Bool.false_or]
      exact Bool.eq_false_iff.mpr (fun hx => hstrip (List.isEmpty_iff.mp hx))
  constructor
  · rcases htc : tokenize_content cfg content none with e | segs
    · exfalso
      simp only [tokenize_content, hcf, Bool.false_eq_true, if_false] at htc
      exact Except.noConfusion htc
    · exact ⟨segs, rfl⟩
  · intro e he
    simp [tokenize_content, hcf, hauto, he]

/-- C10 witness: content whose header detection fails (it does not start
with `ISA`) still tokenizes, using the default delimiters. -/
theorem tokenize_autodetect_fallback_witness :
    tokenize_content {} "HELLO*WORLD~".data none =
      tokenize_content {} "HELLO*WORLD~".data
        (some (use_default_delimiters ({} : ParserConfig).default_delimiters)) ∧
    tokenize_content {} "HELLO*WORLD~".data none = .ok ["HELLO*WORLD".data] :=
  ⟨(tokenize_autodetect_fallback.1 {} "HELLO*WORLD~".data rfl (by decide)).2
      .invalidISASegment (by rfl),
    by rfl⟩

end EDI997
